import Mathlib

/-!
Verification of the compose-driver / process-runner slice of the
repository (`compose.go`) and of the scaffolding generator's validation
logic (`modulegen/main.go`), as a shallow embedding in Lean 4.

Modelling conventions:
* Go `error` values become `Option String` (`none` = nil).
* Go maps over string keys become `GoMap := String → Option String`;
  `map[k] = v` becomes `mapSet`, and iterating one map into another
  (`for k, v := range src dst[k] = v`) becomes `mapUnion`.
* Byte slices become `List Nat`.
* OS-dependent inputs (`filepath.Abs`, `runtime.GOOS`,
  `os.PathListSeparator`) are parameters of the model.
* The outcome of the external world for one invocation (the results of
  `exec.LookPath`, `cmd.Start`, `cmd.Wait`, the two `io.Copy` calls, and
  the schedule of the two drain goroutines relative to the return) is a
  `World` record; `execute` and `executeCompose` are deterministic
  functions of it.  The boolean schedule bits say whether each goroutine's
  final write to its error variable happened before the function read it
  while building the result, which is exactly the unsynchronized-read
  freedom present in the source.
* A `panic` in Go becomes `Except.error` carrying the panic message, and
  observable side effects (creating an output tee, spawning the process)
  are recorded in an event trace so that "before any process is spawned"
  is a statement about the trace.
-/

/-- Go maps with string keys and values, seen through their lookup
semantics. -/
abbrev GoMap := String → Option String

/-- The nil / empty Go map. -/
def emptyGoMap : GoMap := fun _ => none

/-- `m[k] = v` on a Go map. -/
def mapSet (m : GoMap) (k v : String) : GoMap :=
  fun q => if q = k then some v else m q

/-- `for k, v := range over { base[k] = v }`: every entry of `over`
written into `base`, so `over` wins on collisions. -/
def mapUnion (base over : GoMap) : GoMap :=
  fun q => match over q with
    | some v => some v
    | none => base q

/-- `envProjectName` constant from compose.go. -/
def envProjectName : String := "COMPOSE_PROJECT_NAME"

/-- `envComposeFile` constant from compose.go. -/
def envComposeFile : String := "COMPOSE_FILE"

/-- The `LocalDockerCompose` struct. -/
structure LocalDockerCompose where
  Executable : String
  ComposeFilePaths : List String
  absComposeFilePaths : List String
  Identifier : String
  Cmd : List String
  Env : GoMap

/-- `NewLocalDockerCompose`. `absFn` models `filepath.Abs` for the host,
`isWindows` models `runtime.GOOS == "windows"`; `Cmd` and `Env` start at
their Go zero values. -/
def NewLocalDockerCompose (absFn : String → String) (filePaths : List String)
    (identifier : String) (isWindows : Bool) : LocalDockerCompose :=
  { Executable := if isWindows then "docker-compose.exe" else "docker-compose"
    ComposeFilePaths := filePaths
    absComposeFilePaths := filePaths.map absFn
    Identifier := identifier.toLower
    Cmd := []
    Env := emptyGoMap }

/-- `WithCommand` (the fluent setter; the Go method mutates the receiver
and returns it). -/
def WithCommand (dc : LocalDockerCompose) (cmd : List String) : LocalDockerCompose :=
  { dc with Cmd := cmd }

/-- `WithEnv` (the fluent setter; the Go method mutates the receiver and
returns it). -/
def WithEnv (dc : LocalDockerCompose) (env : GoMap) : LocalDockerCompose :=
  { dc with Env := env }

/-- `getDockerComposeEnvironment`: a fresh map holding the project-name
variable (the identifier, lower-cased at construction) and the
compose-file variable (every absolute path followed by
`os.PathListSeparator`, modelled by `sep`). -/
def getDockerComposeEnvironment (dc : LocalDockerCompose) (sep : Char) : GoMap :=
  let composeFileEnvVariableValue :=
    dc.absComposeFilePaths.foldl (fun acc abs => acc ++ abs ++ sep.toString) ""
  mapSet (mapSet emptyGoMap envProjectName dc.Identifier)
    envComposeFile composeFileEnvVariableValue

/-- `ExecError` struct: the three independent error fields. -/
structure ExecError where
  Error : Option String
  Stdout : Option String
  Stderr : Option String
deriving Repr, DecidableEq

/-- One invocation's interaction with the outside world: results of
`exec.LookPath`, `cmd.Start`, `cmd.Wait`, the error each `io.Copy`
goroutine would finally store, and whether that store happened before the
caller read the variable when building the result. -/
structure World where
  lookPathErr : Option String
  startErr : Option String
  waitErr : Option String
  errStdoutFinal : Option String
  errStderrFinal : Option String
  stdoutDone : Bool
  stderrDone : Bool

/-- Observable side effects of the process-runner slice, recorded in
order: creating a capturing tee, and starting the external process with
its working directory, binary, argument vector and environment overlay. -/
inductive Event where
  | teeCreated
  | processStart (dir : String) (binary : String) (args : List String) (env : GoMap)

/-- `which`: `exec.LookPath` on the binary, error component only. -/
def which (_binary : String) (w : World) : Option String :=
  w.lookPathErr

/-- `execute`: builds the command, creates the two capturing tees, starts
the process; on start failure returns the start error with the copy-error
variables still at their initial nil; otherwise waits and returns the wait
error together with whatever the two drain goroutines had stored by
then. -/
def execute (dirContext : String) (environment : GoMap) (binary : String)
    (args : List String) (w : World) : ExecError × List Event :=
  let evs := [Event.teeCreated, Event.teeCreated]
  match w.startErr with
  | some e => (⟨some e, none, none⟩, evs)
  | none =>
    let evs := evs ++ [Event.processStart dirContext binary args environment]
    let errStdout := if w.stdoutDone then w.errStdoutFinal else none
    let errStderr := if w.stderrDone then w.errStderrFinal else none
    (⟨w.waitErr, errStdout, errStderr⟩, evs)

/-- The directory component of Go's `filepath.Split` for a host whose
separator is `/`: everything up to and including the final separator,
empty when the path has none. -/
def filepathSplitDir (path : String) : String :=
  ⟨((path.data.reverse.dropWhile (fun c => c ≠ '/')).reverse)⟩

/-- The panic message `executeCompose` raises on a non-nil top-level
error (note it interpolates `dc.Cmd`, not the arguments actually run). -/
def composeAbnormalExitMsg (dc : LocalDockerCompose) (err : String) : String :=
  "Local Docker compose exited abnormally whilst running " ++ dc.Executable ++
    ": [" ++ String.intercalate " " dc.Cmd ++ "]. " ++ err

/-- `executeCompose`: preflight `which` check (panic on failure, before
anything else), environment assembly with the user overlay written on
top, `-f` pair assembly with the `docker-compose.yml` fallback, working
directory from the first absolute path, delegation to `execute`, and a
panic on a non-nil top-level error. -/
def executeCompose (dc : LocalDockerCompose) (args : List String) (sep : Char)
    (w : World) : Except String ExecError × List Event :=
  if (which dc.Executable w).isSome then
    (.error ("Local Docker Compose not found. Is " ++ dc.Executable ++ " on the PATH?"), [])
  else
    let environment := mapUnion (getDockerComposeEnvironment dc sep) dc.Env
    let (pwd, fileArgs) :=
      match dc.absComposeFilePaths with
      | [] => (".", ["-f", "docker-compose.yml"])
      | first :: _ =>
        (filepathSplitDir first,
          dc.absComposeFilePaths.foldl (fun acc abs => acc ++ ["-f", abs]) [])
    let cmds := fileArgs ++ args
    let (execErr, evs) := execute pwd environment dc.Executable cmds w
    match execErr.Error with
    | some err => (.error (composeAbnormalExitMsg dc err), evs)
    | none => (.ok execErr, evs)

/-- `Down`: `executeCompose` with the fixed `down` argument. -/
def Down (dc : LocalDockerCompose) (sep : Char) (w : World) :
    Except String ExecError × List Event :=
  executeCompose dc ["down"] sep w

/-- `Invoke`: `executeCompose` with the configured command. -/
def Invoke (dc : LocalDockerCompose) (sep : Char) (w : World) :
    Except String ExecError × List Event :=
  executeCompose dc dc.Cmd sep w

/-! ### Output Tee (`capturingPassThroughWriter`) -/

/-- A destination writer: from its state and the written bytes, the new
state and the Go write result (byte count, error). -/
def WriteFn (σ : Type) := σ → List Nat → σ × (Nat × Option String)

/-- `capturingPassThroughWriter`: its byte buffer together with the state
of the wrapped destination writer. -/
structure CapturingPassThroughWriter (σ : Type) where
  buf : List Nat
  dest : σ

/-- `newCapturingPassThroughWriter`: empty buffer around a destination. -/
def newCapturingPassThroughWriter (dest : σ) : CapturingPassThroughWriter σ :=
  { buf := [], dest := dest }

/-- `Write`: append the bytes to the buffer, then forward the same bytes
to the destination, returning the destination's write result. -/
def CapturingPassThroughWriter.Write (wf : WriteFn σ)
    (s : CapturingPassThroughWriter σ) (d : List Nat) :
    CapturingPassThroughWriter σ × (Nat × Option String) :=
  let buf := s.buf ++ d
  let (dest, res) := wf s.dest d
  ({ buf := buf, dest := dest }, res)

/-- `Bytes`: the accumulated buffer. -/
def CapturingPassThroughWriter.Bytes (s : CapturingPassThroughWriter σ) : List Nat :=
  s.buf

/-- A whole sequence of `Write` calls, keeping only the writer state. -/
def CapturingPassThroughWriter.writeSeq (wf : WriteFn σ)
    (s : CapturingPassThroughWriter σ) : List (List Nat) → CapturingPassThroughWriter σ
  | [] => s
  | d :: ds => CapturingPassThroughWriter.writeSeq wf (CapturingPassThroughWriter.Write wf s d).1 ds

/-- Instrument an arbitrary destination writer so that its state also
logs the sequence of byte chunks it received. -/
def loggedWriter (wf : WriteFn σ) : WriteFn (σ × List (List Nat)) :=
  fun s d =>
    let (dest, res) := wf s.1 d
    ((dest, s.2 ++ [d]), res)

/-! ### Scaffolding generator (`modulegen/main.go`) -/

/-- Whether Go's regexp `^[A-Za-z][A-Za-z0-9]*$` matches a string: a
leading ASCII letter followed by ASCII letters and digits. -/
def matchesNameRegexp (s : String) : Bool :=
  match s.data with
  | [] => false
  | c :: cs => c.isAlpha && cs.all (fun d => d.isAlpha || d.isDigit)

/-- The `Example` struct of the generator. -/
structure GenExample where
  Image : String
  IsModule : Bool
  Name : String
  TitleName : String
  TCVersion : String

/-- `Example.Validate`: the name then the title are checked against
`^[A-Za-z][A-Za-z0-9]*$`; the first failure is returned as the error. -/
def GenExample.Validate (e : GenExample) : Option String :=
  if ¬ matchesNameRegexp e.Name then
    some ("invalid name: " ++ e.Name ++
      ". Only alphanumerical characters are allowed (leading character must be a letter)")
  else if ¬ matchesNameRegexp e.TitleName then
    some ("invalid title: " ++ e.TitleName ++
      ". Only alphanumerical characters are allowed (leading character must be a letter)")
  else
    none

/-- Observable file-system effects of `generate`. -/
inductive GenEvent where
  | mkdirAll (path : String)
  | fileCreated (path : String)

/-- `generate`: validation runs first and a validation error returns
before any directory or file is touched; everything after validation
(template parsing, directory creation, file writes, config patching) is
abstracted as `rest`, which carries its own outcome and effects. -/
def generate (e : GenExample) (rest : Except String Unit × List GenEvent) :
    Except String Unit × List GenEvent :=
  match e.Validate with
  | some err => (.error err, [])
  | none => rest

/-! ### Spec-side descriptions and trace observers

The following definitions transcribe the spec's wording, to be compared
with what the embedded code computes. -/

/-- Spec wording of the file arguments: a `-f <absolute-path>` pair per
configured file in order, or the single pair `-f docker-compose.yml`
when none were configured. -/
def specFilePairs (absPaths : List String) : List String :=
  match absPaths with
  | [] => ["-f", "docker-compose.yml"]
  | _ => absPaths.flatMap (fun p => ["-f", p])

/-- Spec wording of the compose-file variable's value: every absolute
path followed by the path-list separator, trailing separator included. -/
def specComposeFileValue (absPaths : List String) (sep : Char) : String :=
  String.join (absPaths.map (fun p => p ++ sep.toString))

/-- The argument vector of the first process-start event of a trace. -/
def spawnArgsOf (evs : List Event) : Option (List String) :=
  evs.findSome? (fun e => match e with
    | .processStart _ _ args _ => some args
    | _ => none)

/-- The working directory of the first process-start event of a trace. -/
def spawnDirOf (evs : List Event) : Option String :=
  evs.findSome? (fun e => match e with
    | .processStart dir _ _ _ => some dir
    | _ => none)

/-- The environment overlay of the first process-start event of a
trace. -/
def spawnEnvOf (evs : List Event) : Option GoMap :=
  evs.findSome? (fun e => match e with
    | .processStart _ _ _ env => some env
    | _ => none)

/-! ### Helper lemmas -/

theorem foldl_append_str : ∀ (l : List String) (a : String),
    l.foldl (fun r s => r ++ s) a = a ++ l.foldl (fun r s => r ++ s) "" := by
  intro l
  induction l with
  | nil => intro a; simp [String.append_empty]
  | cons x xs ih =>
    intro a
    simp only [List.foldl_cons]
    rw [ih (a ++ x), ih ("" ++ x), String.empty_append, String.append_assoc]

theorem join_cons (a : String) (l : List String) :
    String.join (a :: l) = a ++ String.join l := by
  simp only [String.join, List.foldl_cons]
  rw [foldl_append_str l ("" ++ a), String.empty_append]

theorem foldl_composeFileValue (sep : Char) : ∀ (l : List String) (acc : String),
    l.foldl (fun acc abs => acc ++ abs ++ sep.toString) acc
      = acc ++ specComposeFileValue l sep := by
  intro l
  induction l with
  | nil => intro acc; simp [specComposeFileValue, String.join, String.append_empty]
  | cons x xs ih =>
    intro acc
    simp only [List.foldl_cons, specComposeFileValue, List.map_cons, join_cons]
    rw [ih (acc ++ x ++ sep.toString)]
    simp only [specComposeFileValue, String.append_assoc]

/-- The working directory `executeCompose` computes: the split-off
directory of the first cached absolute path, or `.`. -/
def composeWorkingDir (dc : LocalDockerCompose) : String :=
  match dc.absComposeFilePaths with
  | [] => "."
  | first :: _ => filepathSplitDir first

/-- The `ExecError` value `execute` returns, as a function of the
world. -/
def execResult (w : World) : ExecError :=
  match w.startErr with
  | some e => ⟨some e, none, none⟩
  | none =>
    ⟨w.waitErr,
      if w.stdoutDone then w.errStdoutFinal else none,
      if w.stderrDone then w.errStderrFinal else none⟩

theorem foldl_filePairs : ∀ (l : List String) (acc : List String),
    l.foldl (fun acc abs => acc ++ ["-f", abs]) acc
      = acc ++ l.flatMap (fun p => ["-f", p]) := by
  intro l
  induction l with
  | nil => intro acc; simp
  | cons x xs ih =>
    intro acc
    simp only [List.foldl_cons, List.flatMap_cons]
    rw [ih (acc ++ ["-f", x])]
    simp

theorem execute_fst (d : String) (env : GoMap) (b : String) (a : List String)
    (w : World) : (execute d env b a w).1 = execResult w := by
  unfold execute execResult
  cases w.startErr <;> simp

theorem execute_snd_started (d : String) (env : GoMap) (b : String)
    (a : List String) (w : World) (hst : w.startErr = none) :
    (execute d env b a w).2 =
      [Event.teeCreated, Event.teeCreated, Event.processStart d b a env] := by
  unfold execute
  rw [hst]
  rfl

theorem executeCompose_eq (dc : LocalDockerCompose) (args : List String)
    (sep : Char) (w : World) (hlp : w.lookPathErr = none) :
    executeCompose dc args sep w =
      ((match (execResult w).Error with
        | some err => .error (composeAbnormalExitMsg dc err)
        | none => .ok (execResult w)),
       (execute (composeWorkingDir dc)
          (mapUnion (getDockerComposeEnvironment dc sep) dc.Env)
          dc.Executable (specFilePairs dc.absComposeFilePaths ++ args) w).2) := by
  unfold executeCompose which
  rw [hlp]
  simp only [Option.isSome_none, Bool.false_eq_true, if_false]
  cases hpaths : dc.absComposeFilePaths with
  | nil =>
    simp only [composeWorkingDir, specFilePairs, hpaths, execute_fst]
    cases hres : (execResult w).Error <;> simp [execute_fst, hres]
  | cons first restp =>
    simp only [composeWorkingDir, specFilePairs, hpaths, execute_fst,
      foldl_filePairs, List.nil_append]
    cases hres : (execResult w).Error <;> simp [execute_fst, hres]

/-! ### Concrete inputs used by the witnesses -/

/-- A world where the preflight check, the start and the wait all
succeed and both drain goroutines finished before the return. -/
def worldOK : World :=
  { lookPathErr := none, startErr := none, waitErr := none
    errStdoutFinal := none, errStderrFinal := none
    stdoutDone := true, stderrDone := true }

/-- A fully configured driver: two compose files, mixed-case identifier,
a command and a user environment overlay. -/
def dcSample : LocalDockerCompose :=
  WithEnv
    (WithCommand
      (NewLocalDockerCompose (fun p => "/abs/" ++ p) ["a.yml", "b.yml"] "Proj" false)
      ["up", "-d"])
    (mapSet emptyGoMap "FOO" "bar")

/-- A world where the start fails. -/
def worldStartFail : World := { worldOK with startErr := some "exec format error" }

/-- A world where the executable is not on the search path. -/
def worldNoPath : World := { worldOK with lookPathErr := some "not found" }

/-- A world where the wait reports a non-zero exit. -/
def worldWaitFail : World := { worldOK with waitErr := some "exit status 1" }

/-- A world where the stdout copy fails but neither drain goroutine had
finished when the runner returned. -/
def worldRace : World :=
  { worldOK with
      errStdoutFinal := some "broken pipe"
      stdoutDone := false
      stderrDone := false }

/-! ### Claim theorems -/

/-- C4: when the external process fails to start, `execute` returns the
start error in the top-level field and both copy-error fields still at
their initial nil, the two reader goroutines never having been
spawned. -/
theorem execute_start_failure_result (d : String) (env : GoMap) (b : String)
    (a : List String) (w : World) (e : String) (h : w.startErr = some e) :
    (execute d env b a w).1 = ⟨some e, none, none⟩ := by
  rw [execute_fst]
  unfold execResult
  rw [h]

/-- Witness for C4 at a concrete world whose start fails. -/
theorem execute_start_failure_result_witness :
    worldStartFail.startErr = some "exec format error" ∧
      (execute "." emptyGoMap "docker-compose" ["down"] worldStartFail).1
        = ⟨some "exec format error", none, none⟩ :=
  ⟨rfl, execute_start_failure_result "." emptyGoMap "docker-compose" ["down"]
    worldStartFail "exec format error" rfl⟩

/-- C5: when the configured executable is not on the search path,
`executeCompose` panics with the not-found message and its event trace
is empty: no tee was created and no process was started. -/
theorem compose_preflight_panic (dc : LocalDockerCompose) (args : List String)
    (sep : Char) (w : World) (e : String) (h : w.lookPathErr = some e) :
    executeCompose dc args sep w =
      (.error ("Local Docker Compose not found. Is " ++ dc.Executable ++ " on the PATH?"),
        []) := by
  unfold executeCompose which
  rw [h]
  rfl

/-- Witness for C5 at a concrete world whose path lookup fails. -/
theorem compose_preflight_panic_witness :
    worldNoPath.lookPathErr = some "not found" ∧
      executeCompose dcSample ["down"] ':' worldNoPath
        = (.error ("Local Docker Compose not found. Is " ++ dcSample.Executable ++
            " on the PATH?"), []) :=
  ⟨rfl, compose_preflight_panic dcSample ["down"] ':' worldNoPath "not found" rfl⟩

/-- C6: with the preflight passing, a wait-level error makes
`executeCompose` panic with the abnormal-exit message rather than return,
and any result it does return has a nil top-level error. -/
theorem compose_wait_error_panics (dc : LocalDockerCompose) (args : List String)
    (sep : Char) (w : World) (hlp : w.lookPathErr = none) :
    (∀ e, w.startErr = none → w.waitErr = some e →
      (executeCompose dc args sep w).1 = .error (composeAbnormalExitMsg dc e)) ∧
    (∀ r, (executeCompose dc args sep w).1 = Except.ok r → r.Error = none) := by
  rw [executeCompose_eq dc args sep w hlp]
  constructor
  · intro e hst hw
    simp [execResult, hst, hw]
  · intro r hr
    cases hres : (execResult w).Error with
    | some err => simp [hres] at hr
    | none =>
      simp [hres] at hr
      rw [← hr]
      exact hres

/-- Witness for C6 at a concrete world whose wait fails. -/
theorem compose_wait_error_panics_witness :
    worldWaitFail.lookPathErr = none ∧
      ((∀ e, worldWaitFail.startErr = none → worldWaitFail.waitErr = some e →
          (executeCompose dcSample ["up", "-d"] ':' worldWaitFail).1
            = .error (composeAbnormalExitMsg dcSample e)) ∧
        (∀ r, (executeCompose dcSample ["up", "-d"] ':' worldWaitFail).1 = Except.ok r →
          r.Error = none)) :=
  ⟨rfl, compose_wait_error_panics dcSample ["up", "-d"] ':' worldWaitFail rfl⟩

/-- C8: when the process starts, `execute` returns as soon as the wait
completes, carrying only what each drain goroutine had stored by then:
the copy-error field of a goroutine that has not finished is still nil
even when that goroutine's copy will fail, so the fields can be read
before the reader tasks have written them. -/
theorem execute_unjoined_reader_fields (d : String) (env : GoMap) (b : String)
    (a : List String) (w : World) (hst : w.startErr = none) :
    (execute d env b a w).1 =
      ⟨w.waitErr,
        if w.stdoutDone then w.errStdoutFinal else none,
        if w.stderrDone then w.errStderrFinal else none⟩ ∧
    (w.stdoutDone = false → (execute d env b a w).1.Stdout = none) ∧
    (w.stderrDone = false → (execute d env b a w).1.Stderr = none) := by
  have hmain : (execute d env b a w).1 =
      ⟨w.waitErr,
        if w.stdoutDone then w.errStdoutFinal else none,
        if w.stderrDone then w.errStderrFinal else none⟩ := by
    rw [execute_fst]
    unfold execResult
    rw [hst]
  refine ⟨hmain, ?_, ?_⟩
  · intro hd
    rw [hmain, hd]
    rfl
  · intro hd
    rw [hmain, hd]
    simp

/-- Witness for C8: a world where the stdout copy fails with an error
the returned result never shows, because the goroutine had not finished
when `execute` returned. -/
theorem execute_unjoined_reader_fields_witness :
    worldRace.startErr = none ∧
      ((execute "." emptyGoMap "docker-compose" ["up"] worldRace).1 =
        ⟨worldRace.waitErr,
          if worldRace.stdoutDone then worldRace.errStdoutFinal else none,
          if worldRace.stderrDone then worldRace.errStderrFinal else none⟩ ∧
        (worldRace.stdoutDone = false →
          (execute "." emptyGoMap "docker-compose" ["up"] worldRace).1.Stdout = none) ∧
        (worldRace.stderrDone = false →
          (execute "." emptyGoMap "docker-compose" ["up"] worldRace).1.Stderr = none)) :=
  ⟨rfl, execute_unjoined_reader_fields "." emptyGoMap "docker-compose" ["up"]
    worldRace rfl⟩

/-- C1: for both terminal operations the spawned argument vector is the
`-f` pair per configured file (in construction order), or the single
`-f docker-compose.yml` fallback, followed by the operation's command
tokens in order. -/
theorem compose_args_file_pairs_then_command (dc : LocalDockerCompose)
    (sep : Char) (w : World) (hlp : w.lookPathErr = none)
    (hst : w.startErr = none) :
    spawnArgsOf (Down dc sep w).2
        = some (specFilePairs dc.absComposeFilePaths ++ ["down"]) ∧
      spawnArgsOf (Invoke dc sep w).2
        = some (specFilePairs dc.absComposeFilePaths ++ dc.Cmd) := by
  constructor <;>
    · simp only [Down, Invoke]
      rw [executeCompose_eq _ _ _ _ hlp, execute_snd_started _ _ _ _ _ hst]
      simp [spawnArgsOf, List.findSome?]

/-- Witness for C1 at a concrete driver and succeeding world. -/
theorem compose_args_file_pairs_then_command_witness :
    worldOK.lookPathErr = none ∧ worldOK.startErr = none ∧
      (spawnArgsOf (Down dcSample ':' worldOK).2
          = some (specFilePairs dcSample.absComposeFilePaths ++ ["down"]) ∧
        spawnArgsOf (Invoke dcSample ':' worldOK).2
          = some (specFilePairs dcSample.absComposeFilePaths ++ dcSample.Cmd)) :=
  ⟨rfl, rfl, compose_args_file_pairs_then_command dcSample ':' worldOK rfl rfl⟩

/-- C7: the working directory handed to the spawned process is the
directory split off the first absolute path cached at construction when
at least one compose file was configured, and `.` otherwise. -/
theorem compose_working_directory (absFn : String → String)
    (paths : List String) (ident : String) (win : Bool) (cmd : List String)
    (userEnv : GoMap) (args : List String) (sep : Char) (w : World)
    (hlp : w.lookPathErr = none) (hst : w.startErr = none) :
    (paths = [] →
      spawnDirOf (executeCompose
        (WithEnv (WithCommand (NewLocalDockerCompose absFn paths ident win) cmd)
          userEnv) args sep w).2 = some ".") ∧
    (∀ p ps, paths = p :: ps →
      spawnDirOf (executeCompose
        (WithEnv (WithCommand (NewLocalDockerCompose absFn paths ident win) cmd)
          userEnv) args sep w).2 = some (filepathSplitDir (absFn p))) := by
  constructor
  · intro hpaths
    subst hpaths
    rw [executeCompose_eq _ _ _ _ hlp, execute_snd_started _ _ _ _ _ hst]
    simp [spawnDirOf, List.findSome?, composeWorkingDir, WithEnv, WithCommand,
      NewLocalDockerCompose]
  · intro p ps hpaths
    subst hpaths
    rw [executeCompose_eq _ _ _ _ hlp, execute_snd_started _ _ _ _ _ hst]
    simp [spawnDirOf, List.findSome?, composeWorkingDir, WithEnv, WithCommand,
      NewLocalDockerCompose]

/-- Witness for C7 on a two-file driver and on an empty-file driver. -/
theorem compose_working_directory_witness :
    worldOK.lookPathErr = none ∧ worldOK.startErr = none ∧
      (∀ p ps, ["a.yml", "b.yml"] = p :: ps →
        spawnDirOf (executeCompose
          (WithEnv (WithCommand
            (NewLocalDockerCompose (fun q => "/abs/" ++ q) ["a.yml", "b.yml"]
              "Proj" false) ["up", "-d"]) (mapSet emptyGoMap "FOO" "bar"))
          ["up", "-d"] ':' worldOK).2
          = some (filepathSplitDir ("/abs/" ++ p))) :=
  ⟨rfl, rfl,
    (compose_working_directory (fun q => "/abs/" ++ q) ["a.yml", "b.yml"] "Proj"
      false ["up", "-d"] (mapSet emptyGoMap "FOO" "bar") ["up", "-d"] ':'
      worldOK rfl rfl).2⟩

/-- C9: with no compose files configured, the computed environment still
binds the compose-file variable, to the empty string, while the argument
list falls back to the single `-f docker-compose.yml` pair. -/
theorem compose_empty_paths_composefile_empty (absFn : String → String)
    (ident : String) (win : Bool) (sep : Char) (args : List String)
    (w : World) (hlp : w.lookPathErr = none) (hst : w.startErr = none) :
    getDockerComposeEnvironment (NewLocalDockerCompose absFn [] ident win) sep
        envComposeFile = some "" ∧
      spawnArgsOf (executeCompose (NewLocalDockerCompose absFn [] ident win)
          args sep w).2
        = some (["-f", "docker-compose.yml"] ++ args) := by
  constructor
  · simp [getDockerComposeEnvironment, NewLocalDockerCompose, mapSet]
  · rw [executeCompose_eq _ _ _ _ hlp, execute_snd_started _ _ _ _ _ hst]
    simp [spawnArgsOf, List.findSome?, specFilePairs, NewLocalDockerCompose]

/-- Witness for C9 at a concrete empty-file driver. -/
theorem compose_empty_paths_composefile_empty_witness :
    worldOK.lookPathErr = none ∧ worldOK.startErr = none ∧
      (getDockerComposeEnvironment
          (NewLocalDockerCompose (fun q => "/abs/" ++ q) [] "Proj" false) ':'
          envComposeFile = some "" ∧
        spawnArgsOf (executeCompose
            (NewLocalDockerCompose (fun q => "/abs/" ++ q) [] "Proj" false)
            ["up"] ':' worldOK).2
          = some (["-f", "docker-compose.yml"] ++ ["up"])) :=
  ⟨rfl, rfl, compose_empty_paths_composefile_empty (fun q => "/abs/" ++ q)
    "Proj" false ':' ["up"] worldOK rfl rfl⟩

/-- C2: the environment handed to the spawned process binds the
project-name variable to the lower-cased identifier and the compose-file
variable to every absolute path followed by the separator (trailing
separator included), except where an entry of the user overlay, which is
written on top, takes precedence. -/
theorem compose_env_assembly (absFn : String → String) (paths : List String)
    (ident : String) (win : Bool) (cmd : List String) (userEnv : GoMap)
    (sep : Char) (args : List String) (w : World)
    (hlp : w.lookPathErr = none) (hst : w.startErr = none) :
    ∃ env : GoMap,
      spawnEnvOf (executeCompose
          (WithEnv (WithCommand (NewLocalDockerCompose absFn paths ident win) cmd)
            userEnv) args sep w).2 = some env ∧
        (∀ k v, userEnv k = some v → env k = some v) ∧
        (userEnv envProjectName = none →
          env envProjectName = some ident.toLower) ∧
        (userEnv envComposeFile = none →
          env envComposeFile = some (specComposeFileValue (paths.map absFn) sep)) := by
  rw [executeCompose_eq _ _ _ _ hlp, execute_snd_started _ _ _ _ _ hst]
  refine ⟨mapUnion (getDockerComposeEnvironment
      (WithEnv (WithCommand (NewLocalDockerCompose absFn paths ident win) cmd)
        userEnv) sep) userEnv,
    by simp [spawnEnvOf, List.findSome?, WithEnv], ?_, ?_, ?_⟩
  · intro k v h
    simp [mapUnion, WithEnv, WithCommand, h]
  · intro h
    simp only [mapUnion, WithEnv, WithCommand, NewLocalDockerCompose,
      getDockerComposeEnvironment, mapSet, h]
    have hne : envProjectName ≠ envComposeFile := by decide
    simp [hne]
  · intro h
    simp only [mapUnion, WithEnv, WithCommand, NewLocalDockerCompose,
      getDockerComposeEnvironment, mapSet, h]
    rw [foldl_composeFileValue sep (paths.map absFn) "", String.empty_append]
    simp

/-- Witness for C2 at a concrete two-file driver with an overlay entry. -/
theorem compose_env_assembly_witness :
    worldOK.lookPathErr = none ∧ worldOK.startErr = none ∧
      (∃ env : GoMap,
        spawnEnvOf (executeCompose
            (WithEnv (WithCommand
              (NewLocalDockerCompose (fun q => "/abs/" ++ q) ["a.yml", "b.yml"]
                "Proj" false) ["up", "-d"]) (mapSet emptyGoMap "FOO" "bar"))
            ["up", "-d"] ':' worldOK).2 = some env ∧
          (∀ k v, mapSet emptyGoMap "FOO" "bar" k = some v → env k = some v) ∧
          (mapSet emptyGoMap "FOO" "bar" envProjectName = none →
            env envProjectName = some ("Proj".toLower)) ∧
          (mapSet emptyGoMap "FOO" "bar" envComposeFile = none →
            env envComposeFile
              = some (specComposeFileValue
                  (["a.yml", "b.yml"].map (fun q => "/abs/" ++ q)) ':'))) :=
  ⟨rfl, rfl, compose_env_assembly (fun q => "/abs/" ++ q) ["a.yml", "b.yml"]
    "Proj" false ["up", "-d"] (mapSet emptyGoMap "FOO" "bar") ':'
    ["up", "-d"] worldOK rfl rfl⟩

theorem writeSeq_buf_log {σ : Type} (wf : WriteFn σ) :
    ∀ (ds : List (List Nat)) (s : CapturingPassThroughWriter (σ × List (List Nat))),
      (CapturingPassThroughWriter.writeSeq (loggedWriter wf) s ds).buf
          = s.buf ++ ds.flatten ∧
        (CapturingPassThroughWriter.writeSeq (loggedWriter wf) s ds).dest.2
          = s.dest.2 ++ ds := by
  intro ds
  induction ds with
  | nil =>
    intro s
    simp [CapturingPassThroughWriter.writeSeq]
  | cons d rest ih =>
    intro s
    simp only [CapturingPassThroughWriter.writeSeq]
    rcases hwd : wf s.dest.1 d with ⟨destS, res⟩
    have hw : (CapturingPassThroughWriter.Write (loggedWriter wf) s d).1
        = { buf := s.buf ++ d, dest := (destS, s.dest.2 ++ [d]) } := by
      simp [CapturingPassThroughWriter.Write, loggedWriter, hwd]
    rw [hw]
    constructor
    · rw [(ih _).1]
      simp
    · rw [(ih _).2]
      simp

/-- C3: every `Write` appends the bytes to the buffer and forwards the
same bytes to the destination, returning the destination's result; over
a whole sequence of writes the accumulated buffer read back by `Bytes`
is the concatenation of the chunks in order, and the destination
received exactly that sequence of chunks. -/
theorem tee_capture_and_forward {σ : Type} (wf : WriteFn σ) (s0 : σ)
    (ds : List (List Nat)) :
    (∀ (s : CapturingPassThroughWriter σ) (d : List Nat),
      CapturingPassThroughWriter.Write wf s d
        = ({ buf := s.buf ++ d, dest := (wf s.dest d).1 }, (wf s.dest d).2)) ∧
      (CapturingPassThroughWriter.writeSeq (loggedWriter wf)
          (newCapturingPassThroughWriter (s0, ([] : List (List Nat)))) ds).Bytes
        = ds.flatten ∧
      (CapturingPassThroughWriter.writeSeq (loggedWriter wf)
          (newCapturingPassThroughWriter (s0, ([] : List (List Nat)))) ds).dest.2
        = ds := by
  refine ⟨?_, ?_, ?_⟩
  · intro s d
    rcases hwd : wf s.dest d with ⟨destS, res⟩
    simp [CapturingPassThroughWriter.Write, hwd]
  · rw [CapturingPassThroughWriter.Bytes, (writeSeq_buf_log wf ds _).1]
    simp [newCapturingPassThroughWriter]
  · rw [(writeSeq_buf_log wf ds _).2]
    simp [newCapturingPassThroughWriter]

/-- C10: an `Example` whose title is empty never passes validation (the
title pattern requires a leading letter, which the empty string lacks),
so `generate` returns the validation error before any directory or file
is created; the title defaults to empty whenever the optional flag is
omitted. -/
theorem generate_empty_title_fails (e : GenExample)
    (rest : Except String Unit × List GenEvent) (h : e.TitleName = "") :
    matchesNameRegexp e.TitleName = false ∧
      ∃ msg, e.Validate = some msg ∧ generate e rest = (.error msg, []) := by
  have hm : matchesNameRegexp e.TitleName = false := by
    rw [h]
    rfl
  refine ⟨hm, ?_⟩
  cases hname : matchesNameRegexp e.Name with
  | false =>
    have hv : e.Validate = some ("invalid name: " ++ e.Name ++
        ". Only alphanumerical characters are allowed (leading character must be a letter)") := by
      unfold GenExample.Validate
      rw [hname]
      simp
    exact ⟨_, hv, by unfold generate; rw [hv]⟩
  | true =>
    have hv : e.Validate = some ("invalid title: " ++ e.TitleName ++
        ". Only alphanumerical characters are allowed (leading character must be a letter)") := by
      unfold GenExample.Validate
      rw [hname, hm]
      simp
    exact ⟨_, hv, by unfold generate; rw [hv]⟩

/-- A concrete generator input with the title flag omitted. -/
def genExampleNoTitle : GenExample :=
  { Image := "redis:latest", IsModule := false, Name := "redis"
    TitleName := "", TCVersion := "v0.20.1" }

/-- Witness for C10 at a concrete example with an empty title. -/
theorem generate_empty_title_fails_witness :
    genExampleNoTitle.TitleName = "" ∧
      (matchesNameRegexp genExampleNoTitle.TitleName = false ∧
        ∃ msg, genExampleNoTitle.Validate = some msg ∧
          generate genExampleNoTitle (.ok (), []) = (.error msg, [])) :=
  ⟨rfl, generate_empty_title_fails genExampleNoTitle (.ok (), []) rfl⟩
